import Mathlib

/-!
Verification of the InfraSync change-classification and risk-analysis pipeline.

The Go sources embedded here:
* `pkg/parser` : `ResourceChange`, `PlanSummary`, `ParsePlan`, `classifyChange`, `toMap`
* `pkg/analyzer` : `Warning`, `AnalyzeChanges`, `analyzeDelete`, `analyzeReplace`,
  `analyzeUpdate`, the resource-type helpers and attribute-change helpers
* `cmd/infrasync/main.go` : `determineExitCode`

Go empty-interface values coming from decoded JSON are modelled by the inductive
type `GoVal`; a Go map from string to empty interface is modelled as an association list
(lookup by first match; decoded JSON maps have unique keys). Go strings are Lean
strings; `strings.ToLower` / `strings.Contains` are modelled character-wise on
`List Char`.
-/

/-- A decoded JSON value as it appears in a Go empty-interface value (nil included). -/
inductive GoVal where
  | vnull : GoVal
  | vbool : Bool → GoVal
  | vnum : Int → GoVal
  | vstr : String → GoVal
  | vlist : List GoVal → GoVal
  | vmap : List (String × GoVal) → GoVal

/-- A Go map from string to empty interface, as an association list. -/
abbrev GoMap := List (String × GoVal)

/-- Character-wise test that the first list starts the second
(models the inner loop of substring search). -/
def charsLeadWith : List Char → List Char → Bool
  | [], _ => true
  | _ :: _, [] => false
  | a :: as, b :: bs => a == b && charsLeadWith as bs

/-- Substring containment on character lists (models Go `strings.Contains`). -/
def charsContain : List Char → List Char → Bool
  | [], sub => sub.isEmpty
  | c :: rest, sub => charsLeadWith sub (c :: rest) || charsContain rest sub

/-- Go `strings.Contains s sub`. -/
def strContains (s sub : String) : Bool :=
  charsContain s.toList sub.toList

/-- Go `strings.ToLower` (character-wise lowering; the sources only use ASCII). -/
def strToLower (s : String) : String :=
  String.mk (s.toList.map Char.toLower)

/-- tfjson.ActionCreate -/
def actionCreate : String := "create"
/-- tfjson.ActionDelete -/
def actionDelete : String := "delete"
/-- tfjson.ActionUpdate -/
def actionUpdate : String := "update"
/-- tfjson.ActionNoop -/
def actionNoop : String := "no-op"

/-- The raw `tfjson.ResourceChange` input record: address, type, the nested
change object with its ordered action list, before/after values and
sensitivity/unknown markers. `Typ` embeds the Go field `Type` (a Lean keyword). -/
structure RawResourceChange where
  Address : String
  Typ : String
  Actions : List String
  Before : GoVal
  After : GoVal
  BeforeSensitive : GoVal
  AfterSensitive : GoVal
  AfterUnknown : GoVal

/-- parser.ResourceChange (`Typ` embeds the Go field `Type`). -/
structure ResourceChange where
  Address : String
  Typ : String
  Actions : List String
  Before : GoMap
  After : GoMap
  IsCreate : Bool
  IsUpdate : Bool
  IsDelete : Bool
  IsReplace : Bool
  IsNoOp : Bool
  BeforeSensitive : GoVal
  AfterSensitive : GoVal
  AfterUnknown : GoVal

/-- parser.PlanSummary. -/
structure PlanSummary where
  TerraformVersion : String
  FormatVersion : String
  Changes : List ResourceChange
  ToCreate : Nat
  ToUpdate : Nat
  ToDelete : Nat
  ToReplace : Nat
  NoChanges : Nat

/-- tfjson.Plan, restricted to the fields `ParsePlan` reads.
`ResourceChanges = none` embeds a nil Go slice. -/
structure Plan where
  TerraformVersion : String
  FormatVersion : String
  ResourceChanges : Option (List RawResourceChange)

/-- parser.toMap: safely converts an empty-interface value to a map; nil and every
non-mapping value degrade to the empty map. -/
def toMap : GoVal → GoMap
  | GoVal.vmap m => m
  | _ => []

/-- parser.classifyChange: builds the normalized `ResourceChange` and sets at
most one classification flag from the action list (replace when the two-entry
list holds both delete and create, else the direct single-action mapping). -/
def classifyChange (rc : RawResourceChange) : ResourceChange :=
  let change : ResourceChange :=
    { Address := rc.Address, Typ := rc.Typ, Actions := rc.Actions,
      Before := toMap rc.Before, After := toMap rc.After,
      IsCreate := false, IsUpdate := false, IsDelete := false,
      IsReplace := false, IsNoOp := false,
      BeforeSensitive := rc.BeforeSensitive,
      AfterSensitive := rc.AfterSensitive,
      AfterUnknown := rc.AfterUnknown }
  if rc.Actions.length = 2 ∧
      rc.Actions.any (fun a => a == actionDelete) ∧
      rc.Actions.any (fun a => a == actionCreate) then
    { change with IsReplace := true }
  else
    match rc.Actions with
    | [a] =>
      if a = actionCreate then { change with IsCreate := true }
      else if a = actionDelete then { change with IsDelete := true }
      else if a = actionUpdate then { change with IsUpdate := true }
      else if a = actionNoop then { change with IsNoOp := true }
      else change
    | _ => change

/-- The body of `ParsePlan`'s loop: append the classified change and bump the
counter of each set flag. -/
def addChange (s : PlanSummary) (c : ResourceChange) : PlanSummary :=
  let s := { s with Changes := s.Changes ++ [c] }
  let s := if c.IsCreate then { s with ToCreate := s.ToCreate + 1 } else s
  let s := if c.IsUpdate then { s with ToUpdate := s.ToUpdate + 1 } else s
  let s := if c.IsDelete then { s with ToDelete := s.ToDelete + 1 } else s
  let s := if c.IsReplace then { s with ToReplace := s.ToReplace + 1 } else s
  if c.IsNoOp then { s with NoChanges := s.NoChanges + 1 } else s

/-- parser.ParsePlan: fold every resource-change record of the plan into the
summary (a nil record slice yields the empty summary). -/
def ParsePlan (plan : Plan) : PlanSummary :=
  let base : PlanSummary :=
    { TerraformVersion := plan.TerraformVersion,
      FormatVersion := plan.FormatVersion,
      Changes := [], ToCreate := 0, ToUpdate := 0, ToDelete := 0,
      ToReplace := 0, NoChanges := 0 }
  match plan.ResourceChanges with
  | none => base
  | some rcs => rcs.foldl (fun s rc => addChange s (classifyChange rc)) base

/-- analyzer.RiskLevel is a string type; constant RiskCritical. -/
def RiskCritical : String := "critical"
/-- analyzer.RiskHigh -/
def RiskHigh : String := "high"
/-- analyzer.RiskMedium -/
def RiskMedium : String := "medium"
/-- analyzer.RiskLow -/
def RiskLow : String := "low"

/-- analyzer.Warning (`Typ` embeds the Go field `Type`). -/
structure Warning where
  Level : String
  Resource : String
  Typ : String
  Message : String
  Explanation : String
deriving DecidableEq

/-- analyzer.containsAny: case-insensitive substring match of `s` against any
entry of the list. -/
def containsAny (s : String) (substrs : List String) : Bool :=
  substrs.any (fun sub => strContains (strToLower s) (strToLower sub))

/-- analyzer.isDatabase -/
def isDatabase (resourceType : String) : Bool :=
  containsAny resourceType
    ["aws_db_instance", "aws_rds", "google_sql_database",
     "azurerm_sql_database", "aws_dynamodb_table", "postgresql", "mysql"]

/-- analyzer.isStorage -/
def isStorage (resourceType : String) : Bool :=
  containsAny resourceType
    ["aws_s3_bucket", "google_storage_bucket",
     "azurerm_storage_account", "aws_ebs_volume"]

/-- analyzer.isNetwork -/
def isNetwork (resourceType : String) : Bool :=
  containsAny resourceType
    ["aws_vpc", "aws_subnet", "google_compute_network",
     "azurerm_virtual_network"]

/-- analyzer.isCompute -/
def isCompute (resourceType : String) : Bool :=
  containsAny resourceType
    ["aws_instance", "google_compute_instance",
     "azurerm_virtual_machine", "aws_ecs_service", "aws_lambda_function"]

/-- analyzer.isLoadBalancer -/
def isLoadBalancer (resourceType : String) : Bool :=
  containsAny resourceType
    ["aws_lb", "aws_elb", "aws_alb", "google_compute_forwarding_rule",
     "azurerm_lb"]

/-- analyzer.isSecurityGroup -/
def isSecurityGroup (resourceType : String) : Bool :=
  containsAny resourceType
    ["aws_security_group", "google_compute_firewall",
     "azurerm_network_security_group"]

/-- analyzer.getBool: a missing key or a non-boolean value reads as false. -/
def getBool (m : GoMap) (key : String) : Bool :=
  match m.lookup key with
  | some (GoVal.vbool b) => b
  | _ => false

/-- analyzer.getNumber: a missing key or a non-numeric value reads as zero
(JSON numbers are embedded as integers; no claim depends on fractional values). -/
def getNumber (m : GoMap) (key : String) : Int :=
  match m.lookup key with
  | some (GoVal.vnum n) => n
  | _ => 0

/-- analyzer.getStringSlice: the string entries of a list value, else empty. -/
def getStringSlice (m : GoMap) (key : String) : List String :=
  match m.lookup key with
  | some (GoVal.vlist xs) =>
    xs.filterMap (fun v => match v with | GoVal.vstr s => some s | _ => none)
  | _ => []

/-- analyzer.hasSecurityGroupWeakening: an open CIDR entry appears in after's
`cidr_blocks` that was not already in before's. -/
def hasSecurityGroupWeakening (before after : GoMap) : Bool :=
  let beforeCidr := getStringSlice before "cidr_blocks"
  let afterCidr := getStringSlice after "cidr_blocks"
  afterCidr.any (fun cidr =>
    (cidr == "0.0.0.0/0" || cidr == "::/0") && !(beforeCidr.contains cidr))

/-- analyzer's fixed encryption-flag key set. -/
def encryptionKeys : List String :=
  ["encryption", "encrypted", "enable_encryption", "encryption_enabled"]

/-- analyzer.hasEncryptionDisabled. -/
def hasEncryptionDisabled (before after : GoMap) : Bool :=
  encryptionKeys.any (fun key => getBool before key && !(getBool after key))

/-- analyzer's fixed backup/versioning key set. -/
def backupKeys : List String :=
  ["versioning", "backup_enabled", "enable_backup",
   "backup_retention_days", "backup_retention_period"]

/-- analyzer.hasBackupDisabled. -/
def hasBackupDisabled (before after : GoMap) : Bool :=
  backupKeys.any (fun key =>
    (getBool before key && !(getBool after key)) ||
    (decide (getNumber before key > 0) && decide (getNumber after key = 0)))

/-- analyzer.analyzeDelete: the four delete rules, additive. -/
def analyzeDelete (change : ResourceChange) : List Warning :=
  (if strContains (strToLower change.Address) "prod" ||
      strContains (strToLower change.Address) "production" then
    [{ Level := RiskCritical, Resource := change.Address, Typ := change.Typ,
       Message := "Production resource will be DESTROYED",
       Explanation := "Deleting production resources can cause service outages" }]
   else []) ++
  (if isDatabase change.Typ then
    [{ Level := RiskCritical, Resource := change.Address, Typ := change.Typ,
       Message := "Database will be DESTROYED - data loss risk!",
       Explanation := "Ensure backups are in place before deleting databases" }]
   else []) ++
  (if isStorage change.Typ then
    [{ Level := RiskHigh, Resource := change.Address, Typ := change.Typ,
       Message := "Storage resource will be DESTROYED - potential data loss",
       Explanation := "Verify data is backed up or migrated before deletion" }]
   else []) ++
  (if isNetwork change.Typ then
    [{ Level := RiskHigh, Resource := change.Address, Typ := change.Typ,
       Message := "Network resource will be DESTROYED - connectivity impact",
       Explanation := "This may affect connectivity for other resources" }]
   else [])

/-- analyzer.analyzeReplace: the three replace rules, additive. -/
def analyzeReplace (change : ResourceChange) : List Warning :=
  (if isDatabase change.Typ then
    [{ Level := RiskCritical, Resource := change.Address, Typ := change.Typ,
       Message := "Database will be REPLACED - downtime expected!",
       Explanation := "Database recreation causes downtime and potential data loss" }]
   else []) ++
  (if isCompute change.Typ then
    [{ Level := RiskHigh, Resource := change.Address, Typ := change.Typ,
       Message := "Compute instance will be REPLACED - downtime expected",
       Explanation := "Instance recreation causes service interruption" }]
   else []) ++
  (if isLoadBalancer change.Typ then
    [{ Level := RiskHigh, Resource := change.Address, Typ := change.Typ,
       Message := "Load balancer will be REPLACED - traffic interruption",
       Explanation := "This may cause temporary service unavailability" }]
   else [])

/-- analyzer.analyzeUpdate: security-group weakening, encryption disabling and
backup disabling checks over the before/after attribute maps. -/
def analyzeUpdate (change : ResourceChange) : List Warning :=
  (if isSecurityGroup change.Typ &&
      hasSecurityGroupWeakening change.Before change.After then
    [{ Level := RiskHigh, Resource := change.Address, Typ := change.Typ,
       Message := "Security group rules are being relaxed",
       Explanation := "Review that new permissions dont expose services unnecessarily" }]
   else []) ++
  (if hasEncryptionDisabled change.Before change.After then
    [{ Level := RiskCritical, Resource := change.Address, Typ := change.Typ,
       Message := "Encryption is being DISABLED",
       Explanation := "Disabling encryption is a serious security risk" }]
   else []) ++
  (if hasBackupDisabled change.Before change.After then
    [{ Level := RiskHigh, Resource := change.Address, Typ := change.Typ,
       Message := "Backup or versioning is being DISABLED",
       Explanation := "This increases risk of data loss" }]
   else [])

/-- The per-change contribution of `AnalyzeChanges`: rule groups gated by the
delete / replace / update flags, in that order. -/
def changeWarnings (change : ResourceChange) : List Warning :=
  (if change.IsDelete then analyzeDelete change else []) ++
  (if change.IsReplace then analyzeReplace change else []) ++
  (if change.IsUpdate then analyzeUpdate change else [])

/-- analyzer.AnalyzeChanges: fold the per-change rule groups over the summary. -/
def AnalyzeChanges (summary : PlanSummary) : List Warning :=
  summary.Changes.foldl (fun ws c => ws ++ changeWarnings c) []

/-- main.determineExitCode: 0 when the four change counters are zero, else 2
on any critical warning, else 1. -/
def determineExitCode (summary : PlanSummary) (warnings : List Warning) : Nat :=
  if summary.ToCreate = 0 ∧ summary.ToUpdate = 0 ∧
      summary.ToDelete = 0 ∧ summary.ToReplace = 0 then 0
  else if warnings.any (fun w => w.Level == RiskCritical) then 2
  else 1

/-- The five classification flags of a change, in declaration order
(IsCreate, IsUpdate, IsDelete, IsReplace, IsNoOp). -/
def flagsOf (c : ResourceChange) : Bool × Bool × Bool × Bool × Bool :=
  (c.IsCreate, c.IsUpdate, c.IsDelete, c.IsReplace, c.IsNoOp)

/-- How many components of a flag tuple are set. -/
def tupleFlagCount : Bool × Bool × Bool × Bool × Bool → Nat
  | (a, b, c, d, e) =>
    (if a then 1 else 0) + (if b then 1 else 0) + (if c then 1 else 0) +
    (if d then 1 else 0) + (if e then 1 else 0)

/-- How many of a change's five classification flags are set. -/
def trueFlagCount (c : ResourceChange) : Nat :=
  tupleFlagCount (flagsOf c)

/-- The spec's classification decision procedure, stated from its words, for
comparison with `classifyChange`: a two-entry action sequence whose set of
actions is exactly the pair of delete and create is a replace; a single action maps
directly to its flag; any other shape leaves all flags false. The final inner
branch (a single action outside the spec's action alphabet of
create/delete/update/no-op) is outside the spec's input domain and mirrors
the all-false fallback. -/
def specClassifyFlags (actions : List String) : Bool × Bool × Bool × Bool × Bool :=
  if actions.length = 2 ∧ actionDelete ∈ actions ∧ actionCreate ∈ actions then
    (false, false, false, true, false)
  else
    match actions with
    | [a] =>
      if a = actionCreate then (true, false, false, false, false)
      else if a = actionDelete then (false, false, true, false, false)
      else if a = actionUpdate then (false, true, false, false, false)
      else if a = actionNoop then (false, false, false, false, true)
      else (false, false, false, false, false)
    | _ => (false, false, false, false, false)

/-- Action-sequence shapes the classifier maps to a flag: a single recognized
action, or a two-entry sequence holding both delete and create. -/
def shapeRecognized (actions : List String) : Bool :=
  match actions with
  | [a] => a == actionCreate || a == actionDelete || a == actionUpdate || a == actionNoop
  | [a, b] => (a == actionDelete && b == actionCreate) ||
              (a == actionCreate && b == actionDelete)
  | _ => false

/-- Sum of the five counters of a summary. -/
def sumCounters (s : PlanSummary) : Nat :=
  s.ToCreate + s.ToUpdate + s.ToDelete + s.ToReplace + s.NoChanges

/-- Number of warnings at the given severity level. -/
def countLevel (ws : List Warning) (level : String) : Nat :=
  (ws.filter (fun w => w.Level == level)).length

/-- Number of warnings at the given severity level carrying the given message. -/
def countAtLevelMsg (ws : List Warning) (level msg : String) : Nat :=
  (ws.filter (fun w => w.Level == level && w.Message == msg)).length

/-- The exit-code policy exactly as claim C4 words it: 0 when all five
counters (NoChanges included) are zero, else 2 on a critical warning, else 1. -/
def specExitCodeFiveCounters (s : PlanSummary) (warnings : List Warning) : Nat :=
  if s.ToCreate = 0 ∧ s.ToUpdate = 0 ∧ s.ToDelete = 0 ∧ s.ToReplace = 0 ∧
      s.NoChanges = 0 then 0
  else if warnings.any (fun w => w.Level == RiskCritical) then 2
  else 1

/-- The amended exit-code policy: only the four change counters decide the
zero exit; NoChanges does not participate. -/
def specExitCodeAmended (s : PlanSummary) (warnings : List Warning) : Nat :=
  if s.ToCreate + s.ToUpdate + s.ToDelete + s.ToReplace = 0 then 0
  else if warnings.any (fun w => w.Level == RiskCritical) then 2
  else 1

/-- A record whose action sequence is empty (a degenerate shape). -/
def rcEmptyActions : RawResourceChange :=
  { Address := "aws_instance.web", Typ := "aws_instance", Actions := [],
    Before := GoVal.vnull, After := GoVal.vnull, BeforeSensitive := GoVal.vnull,
    AfterSensitive := GoVal.vnull, AfterUnknown := GoVal.vnull }

/-- A one-record plan around `rcEmptyActions`. -/
def planEmptyActions : Plan :=
  { TerraformVersion := "1.5.0", FormatVersion := "1.2",
    ResourceChanges := some [rcEmptyActions] }

/-- A record with the single action no-op. -/
def rcNoop : RawResourceChange :=
  { Address := "aws_db_instance.prod_db", Typ := "aws_db_instance",
    Actions := [actionNoop], Before := GoVal.vnull, After := GoVal.vnull,
    BeforeSensitive := GoVal.vnull, AfterSensitive := GoVal.vnull,
    AfterUnknown := GoVal.vnull }

/-- A one-record plan around `rcNoop`. -/
def planNoop : Plan :=
  { TerraformVersion := "1.5.0", FormatVersion := "1.2",
    ResourceChanges := some [rcNoop] }

/-- The claim C5 scenario record: an aws_rds_cluster at a prod address with
actions [delete, create]. -/
def rcRdsReplace : RawResourceChange :=
  { Address := "aws_rds_cluster.prod_main", Typ := "aws_rds_cluster",
    Actions := [actionDelete, actionCreate], Before := GoVal.vnull,
    After := GoVal.vnull, BeforeSensitive := GoVal.vnull,
    AfterSensitive := GoVal.vnull, AfterUnknown := GoVal.vnull }

/-- A one-record plan around `rcRdsReplace`. -/
def planRdsReplace : Plan :=
  { TerraformVersion := "1.5.0", FormatVersion := "1.2",
    ResourceChanges := some [rcRdsReplace] }

/-- An update-classified change disabling encryption (encrypted true→false). -/
def cEncExample : ResourceChange :=
  { Address := "aws_ebs_volume.data", Typ := "aws_ebs_volume",
    Actions := [actionUpdate],
    Before := [("encrypted", GoVal.vbool true)],
    After := [("encrypted", GoVal.vbool false)],
    IsCreate := false, IsUpdate := true, IsDelete := false, IsReplace := false,
    IsNoOp := false, BeforeSensitive := GoVal.vnull,
    AfterSensitive := GoVal.vnull, AfterUnknown := GoVal.vnull }

/-- An update-classified security-group change opening 0.0.0.0/0. -/
def cSgExample : ResourceChange :=
  { Address := "aws_security_group.web", Typ := "aws_security_group",
    Actions := [actionUpdate],
    Before := [("cidr_blocks", GoVal.vlist [GoVal.vstr "10.0.0.0/8"])],
    After := [("cidr_blocks", GoVal.vlist [GoVal.vstr "10.0.0.0/8", GoVal.vstr "0.0.0.0/0"])],
    IsCreate := false, IsUpdate := true, IsDelete := false, IsReplace := false,
    IsNoOp := false, BeforeSensitive := GoVal.vnull,
    AfterSensitive := GoVal.vnull, AfterUnknown := GoVal.vnull }

/-- A delete-classified change of a production database. -/
def cDbProdDelete : ResourceChange :=
  { Address := "aws_db_instance.prod_main", Typ := "aws_db_instance",
    Actions := [actionDelete], Before := [], After := [],
    IsCreate := false, IsUpdate := false, IsDelete := true, IsReplace := false,
    IsNoOp := false, BeforeSensitive := GoVal.vnull,
    AfterSensitive := GoVal.vnull, AfterUnknown := GoVal.vnull }

/-- A record whose before value is a mapping and whose after value is null. -/
def rcMapBefore : RawResourceChange :=
  { Address := "aws_s3_bucket.logs", Typ := "aws_s3_bucket",
    Actions := [actionDelete],
    Before := GoVal.vmap [("versioning", GoVal.vbool true)],
    After := GoVal.vnull, BeforeSensitive := GoVal.vnull,
    AfterSensitive := GoVal.vnull, AfterUnknown := GoVal.vnull }

theorem classify_flags_eq (rc : RawResourceChange) :
    flagsOf (classifyChange rc) = specClassifyFlags rc.Actions := by
  unfold classifyChange specClassifyFlags flagsOf
  simp only [List.any_eq_true, beq_iff_eq, exists_eq_right]
  split
  · rfl
  · split
    · split_ifs <;> rfl
    · rfl

theorem tupleFlagCount_spec_le_one (actions : List String) :
    tupleFlagCount (specClassifyFlags actions) ≤ 1 := by
  unfold specClassifyFlags
  repeat' split
  all_goals decide

theorem tupleFlagCount_spec_eq_one (actions : List String)
    (h : shapeRecognized actions = true) :
    tupleFlagCount (specClassifyFlags actions) = 1 := by
  match actions with
  | [a] =>
    simp only [shapeRecognized, Bool.or_eq_true, beq_iff_eq] at h
    rcases h with ((h | h) | h) | h <;> subst h <;> decide
  | [a, b] =>
    simp only [shapeRecognized, Bool.or_eq_true, Bool.and_eq_true, beq_iff_eq] at h
    rcases h with ⟨h1, h2⟩ | ⟨h1, h2⟩ <;> subst h1 <;> subst h2 <;> decide
  | [] => simp [shapeRecognized] at h
  | a :: b :: c :: t => simp [shapeRecognized] at h

theorem trueFlagCount_classify_le_one (rc : RawResourceChange) :
    trueFlagCount (classifyChange rc) ≤ 1 := by
  rw [trueFlagCount, classify_flags_eq]
  exact tupleFlagCount_spec_le_one rc.Actions

theorem trueFlagCount_classify_eq_one (rc : RawResourceChange)
    (h : shapeRecognized rc.Actions = true) :
    trueFlagCount (classifyChange rc) = 1 := by
  rw [trueFlagCount, classify_flags_eq]
  exact tupleFlagCount_spec_eq_one rc.Actions h

theorem addChange_sumCounters (s : PlanSummary) (c : ResourceChange) :
    sumCounters (addChange s c) = sumCounters s + trueFlagCount c := by
  unfold addChange sumCounters trueFlagCount tupleFlagCount flagsOf
  cases c.IsCreate <;> cases c.IsUpdate <;> cases c.IsDelete <;>
    cases c.IsReplace <;> cases c.IsNoOp <;> simp <;> omega

theorem addChange_length (s : PlanSummary) (c : ResourceChange) :
    (addChange s c).Changes.length = s.Changes.length + 1 := by
  unfold addChange
  cases c.IsCreate <;> cases c.IsUpdate <;> cases c.IsDelete <;>
    cases c.IsReplace <;> cases c.IsNoOp <;> simp

theorem foldl_addChange (rcs : List RawResourceChange) (s : PlanSummary) :
    sumCounters (rcs.foldl (fun acc rc => addChange acc (classifyChange rc)) s) =
      sumCounters s + (rcs.map (fun rc => trueFlagCount (classifyChange rc))).sum ∧
    (rcs.foldl (fun acc rc => addChange acc (classifyChange rc)) s).Changes.length =
      s.Changes.length + rcs.length := by
  induction rcs generalizing s with
  | nil => simp
  | cons rc rest ih =>
    simp only [List.foldl_cons, List.map_cons, List.sum_cons, List.length_cons]
    have h := ih (addChange s (classifyChange rc))
    rw [h.1, h.2, addChange_sumCounters, addChange_length]
    omega

theorem sum_trueFlagCounts_le (rcs : List RawResourceChange) :
    (rcs.map (fun rc => trueFlagCount (classifyChange rc))).sum ≤ rcs.length := by
  induction rcs with
  | nil => simp
  | cons rc rest ih =>
    simp only [List.map_cons, List.sum_cons, List.length_cons]
    have := trueFlagCount_classify_le_one rc
    omega

theorem sum_trueFlagCounts_eq (rcs : List RawResourceChange)
    (h : ∀ rc ∈ rcs, shapeRecognized rc.Actions = true) :
    (rcs.map (fun rc => trueFlagCount (classifyChange rc))).sum = rcs.length := by
  induction rcs with
  | nil => simp
  | cons rc rest ih =>
    simp only [List.map_cons, List.sum_cons, List.length_cons]
    rw [trueFlagCount_classify_eq_one rc (h rc (List.mem_cons_self rc rest)),
      ih (fun x hx => h x (List.mem_cons_of_mem rc hx))]
    omega

theorem countLevel_append (ws₁ ws₂ : List Warning) (level : String) :
    countLevel (ws₁ ++ ws₂) level = countLevel ws₁ level + countLevel ws₂ level := by
  simp [countLevel, List.filter_append]

theorem countAtLevelMsg_append (ws₁ ws₂ : List Warning) (level msg : String) :
    countAtLevelMsg (ws₁ ++ ws₂) level msg =
      countAtLevelMsg ws₁ level msg + countAtLevelMsg ws₂ level msg := by
  simp [countAtLevelMsg, List.filter_append]

theorem countAtLevelMsg_changeWarnings (c : ResourceChange) (level msg : String) :
    countAtLevelMsg (changeWarnings c) level msg =
      (if c.IsDelete then countAtLevelMsg (analyzeDelete c) level msg else 0) +
      (if c.IsReplace then countAtLevelMsg (analyzeReplace c) level msg else 0) +
      (if c.IsUpdate then countAtLevelMsg (analyzeUpdate c) level msg else 0) := by
  unfold changeWarnings
  rw [countAtLevelMsg_append, countAtLevelMsg_append]
  split_ifs <;> simp [countAtLevelMsg]

theorem countAtLevelMsg_analyzeDelete_enc (c : ResourceChange) :
    countAtLevelMsg (analyzeDelete c) RiskCritical "Encryption is being DISABLED" = 0 := by
  unfold analyzeDelete
  split_ifs <;> rfl

theorem countAtLevelMsg_analyzeReplace_enc (c : ResourceChange) :
    countAtLevelMsg (analyzeReplace c) RiskCritical "Encryption is being DISABLED" = 0 := by
  unfold analyzeReplace
  split_ifs <;> rfl

theorem countAtLevelMsg_analyzeUpdate_enc (c : ResourceChange) :
    countAtLevelMsg (analyzeUpdate c) RiskCritical "Encryption is being DISABLED" =
      if hasEncryptionDisabled c.Before c.After then 1 else 0 := by
  unfold analyzeUpdate
  split_ifs <;> rfl

theorem hasEncryptionDisabled_iff (before after : GoMap) :
    hasEncryptionDisabled before after = true ↔
      ∃ k ∈ encryptionKeys, getBool before k = true ∧ getBool after k = false := by
  simp [hasEncryptionDisabled, List.any_eq_true, Bool.and_eq_true, Bool.not_eq_true']

theorem hasSecurityGroupWeakening_iff (before after : GoMap) :
    hasSecurityGroupWeakening before after = true ↔
      ∃ cidr ∈ getStringSlice after "cidr_blocks",
        (cidr = "0.0.0.0/0" ∨ cidr = "::/0") ∧
        cidr ∉ getStringSlice before "cidr_blocks" := by
  simp [hasSecurityGroupWeakening, List.any_eq_true, Bool.and_eq_true,
    Bool.or_eq_true, Bool.not_eq_true', beq_iff_eq, List.elem_iff]

theorem countAtLevelMsg_analyzeDelete_sg (c : ResourceChange) :
    countAtLevelMsg (analyzeDelete c) RiskHigh "Security group rules are being relaxed" = 0 := by
  unfold analyzeDelete
  split_ifs <;> rfl

theorem countAtLevelMsg_analyzeReplace_sg (c : ResourceChange) :
    countAtLevelMsg (analyzeReplace c) RiskHigh "Security group rules are being relaxed" = 0 := by
  unfold analyzeReplace
  split_ifs <;> rfl

theorem countAtLevelMsg_analyzeUpdate_sg (c : ResourceChange) :
    countAtLevelMsg (analyzeUpdate c) RiskHigh "Security group rules are being relaxed" =
      if isSecurityGroup c.Typ && hasSecurityGroupWeakening c.Before c.After
      then 1 else 0 := by
  unfold analyzeUpdate
  split_ifs <;> rfl

theorem countLevel_changeWarnings (c : ResourceChange) (level : String) :
    countLevel (changeWarnings c) level =
      (if c.IsDelete then countLevel (analyzeDelete c) level else 0) +
      (if c.IsReplace then countLevel (analyzeReplace c) level else 0) +
      (if c.IsUpdate then countLevel (analyzeUpdate c) level else 0) := by
  unfold changeWarnings
  rw [countLevel_append, countLevel_append]
  split_ifs <;> simp [countLevel]

theorem countLevel_analyzeDelete_critical (c : ResourceChange) :
    countLevel (analyzeDelete c) RiskCritical =
      (if strContains (strToLower c.Address) "prod" ||
          strContains (strToLower c.Address) "production" then 1 else 0) +
      (if isDatabase c.Typ then 1 else 0) := by
  unfold analyzeDelete
  split_ifs <;> rfl

theorem countLevel_analyzeDelete_high (c : ResourceChange) :
    countLevel (analyzeDelete c) RiskHigh =
      (if isStorage c.Typ then 1 else 0) + (if isNetwork c.Typ then 1 else 0) := by
  unfold analyzeDelete
  split_ifs <;> rfl

theorem charsLeadWith_map (f : Char → Char) (a b : List Char)
    (h : charsLeadWith a b = true) :
    charsLeadWith (a.map f) (b.map f) = true := by
  induction a generalizing b with
  | nil => simp [charsLeadWith]
  | cons x xs ih =>
    cases b with
    | nil => simp [charsLeadWith] at h
    | cons y ys =>
      simp only [charsLeadWith, Bool.and_eq_true, beq_iff_eq] at h
      obtain ⟨h1, h2⟩ := h
      subst h1
      simp only [List.map_cons, charsLeadWith, Bool.and_eq_true, beq_iff_eq]
      exact ⟨trivial, ih ys h2⟩

theorem charsContain_map (f : Char → Char) (s sub : List Char)
    (h : charsContain s sub = true) :
    charsContain (s.map f) (sub.map f) = true := by
  induction s with
  | nil =>
    cases sub with
    | nil => rfl
    | cons y ys => simp [charsContain, List.isEmpty] at h
  | cons c rest ih =>
    simp only [charsContain, Bool.or_eq_true] at h
    rcases h with h | h
    · have h2 := charsLeadWith_map f sub (c :: rest) h
      simp only [List.map_cons] at h2
      simp only [List.map_cons, charsContain, Bool.or_eq_true]
      exact Or.inl h2
    · simp only [List.map_cons, charsContain, Bool.or_eq_true]
      exact Or.inr (ih h)

theorem strContains_toLower_mono (s sub : String) (h : strContains s sub = true) :
    strContains (strToLower s) (strToLower sub) = true :=
  charsContain_map Char.toLower s.toList sub.toList h

theorem isDatabase_of_contains (t : String)
    (h : strContains t "aws_db_instance" = true) : isDatabase t = true := by
  unfold isDatabase containsAny
  exact List.any_eq_true.mpr
    ⟨"aws_db_instance", by decide, strContains_toLower_mono t "aws_db_instance" h⟩

theorem isStorage_of_contains (t : String)
    (h : strContains t "aws_s3_bucket" = true) : isStorage t = true := by
  unfold isStorage containsAny
  exact List.any_eq_true.mpr
    ⟨"aws_s3_bucket", by decide, strContains_toLower_mono t "aws_s3_bucket" h⟩

theorem strToLower_contains_prod (a : String)
    (h : strContains a "prod" = true) :
    strContains (strToLower a) "prod" = true :=
  strContains_toLower_mono a "prod" h

theorem classifyChange_Before_eq (rc : RawResourceChange) :
    (classifyChange rc).Before = toMap rc.Before := by
  unfold classifyChange
  split
  · rfl
  · split
    · split_ifs <;> rfl
    · rfl

theorem classifyChange_After_eq (rc : RawResourceChange) :
    (classifyChange rc).After = toMap rc.After := by
  unfold classifyChange
  split
  · rfl
  · split
    · split_ifs <;> rfl
    · rfl

theorem toMap_eq_nil (v : GoVal) (h : ∀ m : GoMap, v ≠ GoVal.vmap m) :
    toMap v = [] := by
  cases v <;> first | rfl | exact absurd rfl (h _)

/-- C1: `classifyChange` assigns the five flags exactly per the spec's
decision procedure (`specClassifyFlags`): a two-entry action sequence whose
set of actions is exactly delete-and-create yields IsReplace alone; a single
recognized action yields exactly its flag; every other shape leaves all five
flags false. -/
theorem C1_classifyChange_follows_spec (rc : RawResourceChange) :
    flagsOf (classifyChange rc) = specClassifyFlags rc.Actions :=
  classify_flags_eq rc

/-- C2 counterexample: the record with an empty action sequence produces a
Change with zero flags set, refuting "exactly one flag is true ... never
zero" over unrestricted action-sequence shapes. -/
theorem C2_counterexample_zero_flags :
    trueFlagCount (classifyChange rcEmptyActions) = 0 ∧
    ¬ trueFlagCount (classifyChange rcEmptyActions) = 1 := by
  decide

/-- C2 (amended): every Change produced by the classifier has at most one of
the five flags set — never more than one — and exactly one when the action
sequence is a recognized shape (a single create/delete/update/no-op action,
or a two-entry sequence holding both delete and create). -/
theorem C2_amended_at_most_one_flag (rc : RawResourceChange) :
    trueFlagCount (classifyChange rc) ≤ 1 ∧
    (shapeRecognized rc.Actions = true → trueFlagCount (classifyChange rc) = 1) :=
  ⟨trueFlagCount_classify_le_one rc, trueFlagCount_classify_eq_one rc⟩

/-- C2 witness: the amended invariant at the concrete replace-shaped record. -/
theorem C2_amended_witness :
    trueFlagCount (classifyChange rcRdsReplace) = 1 :=
  (C2_amended_at_most_one_flag rcRdsReplace).2 (by decide)

/-- C3 counterexample: a one-record plan whose record has an empty action
sequence yields a summary with counter sum 0 but one Change, refuting
ToCreate+ToUpdate+ToDelete+ToReplace+NoChanges == len(Changes) for plans of
arbitrary shape. -/
theorem C3_counterexample_sum_lt_len :
    sumCounters (ParsePlan planEmptyActions) = 0 ∧
    (ParsePlan planEmptyActions).Changes.length = 1 := by
  decide

/-- C3 (amended): for every plan the counter sum is at most len(Changes),
with equality whenever every record's action sequence is a recognized shape. -/
theorem C3_amended_counters_sum (plan : Plan) :
    sumCounters (ParsePlan plan) ≤ (ParsePlan plan).Changes.length ∧
    ((∀ rc ∈ plan.ResourceChanges.getD [], shapeRecognized rc.Actions = true) →
      sumCounters (ParsePlan plan) = (ParsePlan plan).Changes.length) := by
  unfold ParsePlan
  cases hrc : plan.ResourceChanges with
  | none => exact ⟨by simp [sumCounters], fun _ => by simp [sumCounters]⟩
  | some rcs =>
    constructor
    · rw [(foldl_addChange rcs _).1, (foldl_addChange rcs _).2]
      have := sum_trueFlagCounts_le rcs
      simp only [sumCounters, List.length_nil]
      try omega
    · intro h
      simp only [Option.getD_some] at h
      rw [(foldl_addChange rcs _).1, (foldl_addChange rcs _).2,
        sum_trueFlagCounts_eq rcs h]
      simp only [sumCounters, List.length_nil]
      try omega

/-- C3 witness: the amended equality at the concrete one-replace plan. -/
theorem C3_amended_witness :
    sumCounters (ParsePlan planRdsReplace) =
      (ParsePlan planRdsReplace).Changes.length :=
  (C3_amended_counters_sum planRdsReplace).2 (by decide)

/-- C4 counterexample: a plan holding the single no-op record gives exit code
0 from the code, while the claim's five-counter policy (NoChanges = 1 ≠ 0,
no critical warning) demands 1. -/
theorem C4_counterexample_noop_exit :
    determineExitCode (ParsePlan planNoop) (AnalyzeChanges (ParsePlan planNoop)) = 0 ∧
    specExitCodeFiveCounters (ParsePlan planNoop)
      (AnalyzeChanges (ParsePlan planNoop)) = 1 := by
  decide

/-- C4 (amended): the exit code is 0 when the four change counters ToCreate,
ToUpdate, ToDelete, ToReplace are all zero (NoChanges does not participate);
otherwise 2 when any warning has critical severity; otherwise 1. -/
theorem C4_amended_exit_code (s : PlanSummary) (ws : List Warning) :
    determineExitCode s ws = specExitCodeAmended s ws := by
  have h : (s.ToCreate = 0 ∧ s.ToUpdate = 0 ∧ s.ToDelete = 0 ∧ s.ToReplace = 0) ↔
      s.ToCreate + s.ToUpdate + s.ToDelete + s.ToReplace = 0 := by omega
  simp only [determineExitCode, specExitCodeAmended, h]

/-- C5: the single-record plan at address aws_rds_cluster.prod_main of type
aws_rds_cluster with actions [delete, create] classifies as a replace, its
warning list holds the critical database-replaced warning, and exactly one
warning of critical severity is emitted in total (the production-address rule
fires only on deletes, never on replaces). -/
theorem C5_rds_replace_scenario :
    (classifyChange rcRdsReplace).IsReplace = true ∧
    (⟨RiskCritical, "aws_rds_cluster.prod_main", "aws_rds_cluster",
      "Database will be REPLACED - downtime expected!",
      "Database recreation causes downtime and potential data loss"⟩ : Warning) ∈
      AnalyzeChanges (ParsePlan planRdsReplace) ∧
    countLevel (AnalyzeChanges (ParsePlan planRdsReplace)) RiskCritical = 1 := by
  decide

/-- C6: for every update-classified change, a true-to-false transition of any
key of the fixed encryption-key set between the before and the after map
yields exactly one critical encryption-disabled warning for that change (one
triggering key suffices, several still yield one); when no key makes that
transition — in particular on the reverse false-to-true transition — no such
warning is emitted. -/
theorem C6_encryption_disabled_warning (c : ResourceChange)
    (hu : c.IsUpdate = true) :
    ((∃ k ∈ encryptionKeys, getBool c.Before k = true ∧ getBool c.After k = false) →
      countAtLevelMsg (changeWarnings c) RiskCritical "Encryption is being DISABLED" = 1) ∧
    ((∀ k ∈ encryptionKeys, ¬(getBool c.Before k = true ∧ getBool c.After k = false)) →
      countAtLevelMsg (changeWarnings c) RiskCritical "Encryption is being DISABLED" = 0) := by
  have hdec := countAtLevelMsg_changeWarnings c RiskCritical "Encryption is being DISABLED"
  rw [countAtLevelMsg_analyzeDelete_enc, countAtLevelMsg_analyzeReplace_enc,
    countAtLevelMsg_analyzeUpdate_enc, hu] at hdec
  constructor
  · intro h
    have henc : hasEncryptionDisabled c.Before c.After = true :=
      (hasEncryptionDisabled_iff c.Before c.After).mpr h
    rw [hdec, henc]
    simp
  · intro h
    have henc : hasEncryptionDisabled c.Before c.After = false := by
      rw [Bool.eq_false_iff]
      intro ht
      obtain ⟨k, hk, hb, ha⟩ := (hasEncryptionDisabled_iff c.Before c.After).mp ht
      exact h k hk ⟨hb, ha⟩
    rw [hdec, henc]
    simp

/-- C6 witness: the update disabling `encrypted` on an EBS volume receives
exactly one critical encryption-disabled warning. -/
theorem C6_witness :
    countAtLevelMsg (changeWarnings cEncExample) RiskCritical
      "Encryption is being DISABLED" = 1 :=
  (C6_encryption_disabled_warning cEncExample rfl).1
    ⟨"encrypted", by decide, rfl, rfl⟩

/-- C7: for every update-classified change whose resource type matches the
security-group set, a world-open CIDR entry (0.0.0.0/0 or ::/0) present in
the after map's cidr_blocks but absent from the before map's cidr_blocks
yields exactly one high-severity security-rules-relaxed warning; when every
open entry of after was already in before, no such warning is emitted. -/
theorem C7_security_group_relaxed (c : ResourceChange) (hu : c.IsUpdate = true)
    (hsg : isSecurityGroup c.Typ = true) :
    ((∃ cidr ∈ getStringSlice c.After "cidr_blocks",
        (cidr = "0.0.0.0/0" ∨ cidr = "::/0") ∧
        cidr ∉ getStringSlice c.Before "cidr_blocks") →
      countAtLevelMsg (changeWarnings c) RiskHigh
        "Security group rules are being relaxed" = 1) ∧
    ((∀ cidr ∈ getStringSlice c.After "cidr_blocks",
        (cidr = "0.0.0.0/0" ∨ cidr = "::/0") →
        cidr ∈ getStringSlice c.Before "cidr_blocks") →
      countAtLevelMsg (changeWarnings c) RiskHigh
        "Security group rules are being relaxed" = 0) := by
  have hdec := countAtLevelMsg_changeWarnings c RiskHigh
    "Security group rules are being relaxed"
  rw [countAtLevelMsg_analyzeDelete_sg, countAtLevelMsg_analyzeReplace_sg,
    countAtLevelMsg_analyzeUpdate_sg, hu, hsg] at hdec
  constructor
  · intro h
    have hw : hasSecurityGroupWeakening c.Before c.After = true :=
      (hasSecurityGroupWeakening_iff c.Before c.After).mpr h
    rw [hdec, hw]
    simp
  · intro h
    have hw : hasSecurityGroupWeakening c.Before c.After = false := by
      rw [Bool.eq_false_iff]
      intro ht
      obtain ⟨cidr, hc, hopen, hnb⟩ :=
        (hasSecurityGroupWeakening_iff c.Before c.After).mp ht
      exact hnb (h cidr hc hopen)
    rw [hdec, hw]
    simp

/-- C7 witness: the security-group update newly opening 0.0.0.0/0 receives
exactly one high-severity security-rules-relaxed warning. -/
theorem C7_witness :
    countAtLevelMsg (changeWarnings cSgExample) RiskHigh
      "Security group rules are being relaxed" = 1 :=
  (C7_security_group_relaxed cSgExample rfl (by decide)).1
    ⟨"0.0.0.0/0", by decide, Or.inl rfl, by decide⟩

/-- C8: for every delete-classified change (IsDelete set, IsReplace and
IsUpdate clear): a type containing "aws_db_instance" receives at least one
critical warning; a type containing "aws_s3_bucket" receives at least one
high-severity warning; and the delete rules are additive — a delete whose
address contains "prod" and whose type matches the database set receives
exactly two critical warnings for that one change. -/
theorem C8_delete_rules (c : ResourceChange) (hd : c.IsDelete = true)
    (hr : c.IsReplace = false) (hu : c.IsUpdate = false) :
    (strContains c.Typ "aws_db_instance" = true →
      1 ≤ countLevel (changeWarnings c) RiskCritical) ∧
    (strContains c.Typ "aws_s3_bucket" = true →
      1 ≤ countLevel (changeWarnings c) RiskHigh) ∧
    (strContains c.Address "prod" = true → isDatabase c.Typ = true →
      countLevel (changeWarnings c) RiskCritical = 2) := by
  have hcw : ∀ level, countLevel (changeWarnings c) level =
      countLevel (analyzeDelete c) level := by
    intro level
    rw [countLevel_changeWarnings, hd, hr, hu]
    simp
  refine ⟨?_, ?_, ?_⟩
  · intro hdb
    rw [hcw, countLevel_analyzeDelete_critical,
      isDatabase_of_contains c.Typ hdb]
    split_ifs <;> simp_all
  · intro hs3
    rw [hcw, countLevel_analyzeDelete_high, isStorage_of_contains c.Typ hs3]
    split_ifs <;> simp_all
  · intro hprod hdb
    have hp : strContains (strToLower c.Address) "prod" = true :=
      strContains_toLower_mono c.Address "prod" hprod
    rw [hcw, countLevel_analyzeDelete_critical, hdb, hp]
    simp

/-- C8 witness: deleting the production database aws_db_instance.prod_main
yields at least one critical warning, and exactly two critical warnings in
total (production destruction and database destruction). -/
theorem C8_witness :
    1 ≤ countLevel (changeWarnings cDbProdDelete) RiskCritical ∧
    countLevel (changeWarnings cDbProdDelete) RiskCritical = 2 :=
  ⟨(C8_delete_rules cDbProdDelete rfl rfl rfl).1 (by decide),
   (C8_delete_rules cDbProdDelete rfl rfl rfl).2.2 (by decide) (by decide)⟩

/-- C9: `classifyChange` is total; the produced change's Before and After
fields are always the `toMap`-normalization of the raw values: a mapping
value is passed through unchanged and every non-mapping value (null/absent
included) becomes the empty map. -/
theorem C9_before_after_normalized (rc : RawResourceChange) :
    (classifyChange rc).Before = toMap rc.Before ∧
    (classifyChange rc).After = toMap rc.After ∧
    (∀ m : GoMap, rc.Before = GoVal.vmap m → (classifyChange rc).Before = m) ∧
    ((∀ m : GoMap, rc.Before ≠ GoVal.vmap m) → (classifyChange rc).Before = []) ∧
    (∀ m : GoMap, rc.After = GoVal.vmap m → (classifyChange rc).After = m) ∧
    ((∀ m : GoMap, rc.After ≠ GoVal.vmap m) → (classifyChange rc).After = []) := by
  refine ⟨classifyChange_Before_eq rc, classifyChange_After_eq rc, ?_, ?_, ?_, ?_⟩
  · intro m hm
    rw [classifyChange_Before_eq rc, hm]
    rfl
  · intro hm
    rw [classifyChange_Before_eq rc, toMap_eq_nil rc.Before hm]
  · intro m hm
    rw [classifyChange_After_eq rc, hm]
    rfl
  · intro hm
    rw [classifyChange_After_eq rc, toMap_eq_nil rc.After hm]

/-- C9 witness: on the record whose before value is a mapping and whose after
value is null, the mapping passes through and the null becomes the empty map. -/
theorem C9_witness :
    (classifyChange rcMapBefore).Before = [("versioning", GoVal.vbool true)] ∧
    (classifyChange rcMapBefore).After = [] :=
  ⟨(C9_before_after_normalized rcMapBefore).2.2.1
      [("versioning", GoVal.vbool true)] rfl,
   (C9_before_after_normalized rcMapBefore).2.2.2.2.2
      (fun _ h => GoVal.noConfusion h)⟩

/-- C10: a record whose action list is exactly [no-op] classifies with IsNoOp
set and increments the NoChanges counter in the aggregation step, and its
change contributes zero warnings regardless of type and address; more
generally every change whose IsDelete, IsReplace and IsUpdate flags are all
clear contributes zero warnings. -/
theorem C10_noop_contributes_nothing (rc : RawResourceChange) (s : PlanSummary)
    (c : ResourceChange) :
    (rc.Actions = [actionNoop] →
      (classifyChange rc).IsNoOp = true ∧
      (addChange s (classifyChange rc)).NoChanges = s.NoChanges + 1 ∧
      changeWarnings (classifyChange rc) = []) ∧
    (c.IsDelete = false → c.IsReplace = false → c.IsUpdate = false →
      changeWarnings c = []) := by
  constructor
  · intro h
    have hflags : flagsOf (classifyChange rc) = (false, false, false, false, true) := by
      rw [classify_flags_eq, h]
      decide
    have h1 : (classifyChange rc).IsCreate = false := congrArg Prod.fst hflags
    have h2 : (classifyChange rc).IsUpdate = false :=
      congrArg (fun t => t.2.1) hflags
    have h3 : (classifyChange rc).IsDelete = false :=
      congrArg (fun t => t.2.2.1) hflags
    have h4 : (classifyChange rc).IsReplace = false :=
      congrArg (fun t => t.2.2.2.1) hflags
    have h5 : (classifyChange rc).IsNoOp = true :=
      congrArg (fun t => t.2.2.2.2) hflags
    refine ⟨h5, ?_, ?_⟩
    · simp [addChange, h1, h2, h3, h4, h5]
    · simp [changeWarnings, h2, h3, h4]
  · intro hd hr hu
    simp [changeWarnings, hd, hr, hu]

/-- C10 witness: the concrete no-op record on a production database type. -/
theorem C10_witness :
    (classifyChange rcNoop).IsNoOp = true ∧
    (addChange (ParsePlan planNoop) (classifyChange rcNoop)).NoChanges =
      (ParsePlan planNoop).NoChanges + 1 ∧
    changeWarnings (classifyChange rcNoop) = [] :=
  (C10_noop_contributes_nothing rcNoop (ParsePlan planNoop)
    (classifyChange rcNoop)).1 rfl
